import Mathlib

/-!
Verification of the Semantic Governance & Temporal Drift Engine.

This file gives a shallow embedding, in Lean 4, of the governance and
temporal-drift logic of the repository:

* `SAGE` embeds `src/core/sage.py` (coherence scoring, trust scoring,
  relation validation, and the tri-state admission decision).
* `Kronos` embeds `src/core/kronos/kronos_engine.py` (exponential trust
  decay and cosine-similarity coherence drift).
* `Core` embeds the admission pipeline of `src/core/reasoner.py`
  together with the storage-table interface of `src/core/storage.py`,
  as a pure state-passing function over an explicit `Store` record.

Modelling conventions:

* Python floats are idealised as real numbers (`ℝ`); quantities that the
  code only ever combines with field arithmetic and comparisons (trust
  scores, similarities, timestamps) are modelled as rationals (`ℚ`) so
  that they stay fully computable and decidable.
* Timestamps (`datetime` values) are modelled as rational numbers of
  seconds; `datetime.utcnow()` becomes an explicit `now` parameter.
* Python `round(x, 3)` is modelled as `round (x * 1000) / 1000`.
  Python uses round-half-even while the Mathlib `round` is
  round-half-up; the two agree except at exact half-thousandths, and no
  input considered in this development hits a tie.
* `numpy` vectors are modelled as `List ℝ`; `np.linalg.norm` is the
  square root of the sum of squares and `np.dot` is the pointwise
  product summed.
* Python exceptions are modelled with `Except`: an exception raised by
  the Python pipeline corresponds to an `Except.error` result paired
  with the store state reached at the moment of the raise (sqlite
  commits each storage call separately, so effects performed before a
  raise persist).
-/

namespace Sov

/-- Python `round(q, 3)` on a rational: round to 3 decimal places.
Mathlib `round` is round-half-up; see the file comment on ties. -/
def round3 (q : ℚ) : ℚ := ((round (q * 1000) : ℤ) : ℚ) / 1000

/-- Python `round(x, 3)` on a real number. -/
noncomputable def round3R (x : ℝ) : ℝ := ((round (x * 1000) : ℤ) : ℝ) / 1000

/-- Sum of squared entries of a vector, the square of `np.linalg.norm`. -/
noncomputable def sumSq (v : List ℝ) : ℝ := (v.map (fun x => x ^ 2)).sum

/-- `np.linalg.norm(v)`: Euclidean norm of a vector. -/
noncomputable def vecNorm (v : List ℝ) : ℝ := Real.sqrt (sumSq v)

/-- `np.dot(u, v)`: pointwise product, summed.  The embedding pairs
entries positionally, as numpy does for equal-length 1-d arrays. -/
noncomputable def dotList (u v : List ℝ) : ℝ := (List.zipWith (fun a b => a * b) u v).sum

namespace SAGE

/-- `required_fields` in `SAGE.coherence_check` (`src/core/sage.py:127`). -/
def required_fields : List String := ["object_type", "data"]

/-- `trusted_sources` in `SAGE.trust_score` (`src/core/sage.py:163`). -/
def trusted_sources : List String := ["SAGE", "Core", "Mirror.UI"]

/-- One provenance event as consumed by `SAGE.trust_score`: the
`action` and `actor` dict entries, and the `timestamp` entry after
`datetime.fromisoformat` parsing (`none` models a missing or
unparseable timestamp, which the code turns into age 0 via `except`).
A missing `actor` key is modelled by the string `unknown`, exactly the
default the code substitutes. -/
structure ProvEvent where
  action : String
  actor : String
  timestamp : Option ℚ
deriving DecidableEq, Repr

/-- The `vector_quality` factor of `SAGE.coherence_check`
(`src/core/sage.py:130-135`): `min(1.0, magnitude / 1.5)` when a
vector is supplied, `1.0` otherwise. -/
noncomputable def vector_quality : Option (List ℝ) → ℝ
  | none => 1
  | some v => min 1 (vecNorm v / 1.5)

/-- `SAGE.coherence_check` (`src/core/sage.py:118-140`).  The object is
represented by the list of its top-level dict keys, which is all the
function inspects.  Completeness counts how many of `required_fields`
occur among the keys; the result is
`round(completeness * 0.6 + vector_quality * 0.4, 3)`. -/
noncomputable def coherence_check (objKeys : List String) (vector : Option (List ℝ)) : ℝ :=
  round3R (((required_fields.countP (fun f => objKeys.contains f) : ℕ) : ℝ)
      / ((required_fields.length : ℕ) : ℝ) * 0.6
    + vector_quality vector * 0.4)

/-- The age factor of `SAGE.trust_score` (`src/core/sage.py:166-176`):
the oldest event is `provenance_chain[-1]`; its parsed timestamp gives
`age_days = (utcnow() - created_at).days` (floor division by 86400
seconds, as Python `timedelta.days`), scored `min(1.0, age_days / 30)`;
a parse failure yields 0. -/
def age_score (now : ℚ) (chain : List ProvEvent) : ℚ :=
  match chain.getLast? with
  | some e =>
      match e.timestamp with
      | some ts => min 1 (((⌊(now - ts) / 86400⌋ : ℤ) : ℚ) / 30)
      | none => 0
  | none => 0

/-- `SAGE.trust_score` (`src/core/sage.py:142-181`).  Empty chain:
neutral 0.5.  Otherwise `round(validation_score * 0.4 +
credibility * 0.4 + age_score * 0.2, 3)` where `validation_score`
caps the count of `validated` events at 3 and `credibility` is the
fraction of actors drawn from `trusted_sources`.  The `object_id`
argument of the Python function is unused and omitted. -/
def trust_score (now : ℚ) (chain : List ProvEvent) : ℚ :=
  if chain.isEmpty then 0.5
  else
    round3 (min 1 ((chain.countP (fun e => e.action == "validated") : ℚ) / 3) * 0.4
      + ((chain.countP (fun e => trusted_sources.contains e.actor) : ℚ)
          / ((max chain.length 1 : ℕ) : ℚ)) * 0.4
      + age_score now chain * 0.2)

/-- The `rationale` strings produced by `SAGE.validate_object`
(`src/core/sage.py:266-277`), as a sum type.  `belowThreshold` carries
the two scores that the Python f-string interpolates into
`Coherence ... or trust ... below threshold`. -/
inductive Rationale where
  | meetsThresholds
  | flaggedForReview
  | belowThreshold (coherence : ℝ) (trust : ℚ)

/-- Result dict of `SAGE.validate_object` (the `thresholds` entry,
two constants, is omitted). -/
structure SageResult where
  coherence_score : ℝ
  trust_score : ℚ
  validated : Bool
  decision : String
  rationale : Rationale

open Classical in
/-- `SAGE.validate_object` (`src/core/sage.py:253-289`): computes
coherence and trust, then the first-match-wins tri-state decision. -/
noncomputable def validate_object (objKeys : List String) (vector : Option (List ℝ))
    (provenance : List ProvEvent) (now : ℚ) : SageResult :=
  let coherence := coherence_check objKeys vector
  let trust := trust_score now provenance
  if coherence ≥ 0.8 ∧ trust ≥ 0.7 then
    ⟨coherence, trust, true, "allow", Rationale.meetsThresholds⟩
  else if coherence ≥ 0.6 ∧ trust ≥ 0.5 then
    ⟨coherence, trust, false, "flag", Rationale.flaggedForReview⟩
  else
    ⟨coherence, trust, false, "deny", Rationale.belowThreshold coherence trust⟩

/-- `compatible_pairs` in `SAGE.validate_relation`
(`src/core/sage.py:221-228`), verbatim from the source. -/
def compatible_pairs : List (String × String) :=
  [("Transaction", "Transaction"),
   ("Transaction", "Account"),
   ("Account", "Account"),
   ("Forecast", "Transaction"),
   ("Document", "Document"),
   ("Concept", "Concept")]

/-- The reason strings returned by `SAGE.validate_relation`, as a sum
type.  `similarityTooLow` carries the similarity the Python f-string
interpolates next to the `SIMILARITY_THRESHOLD` constant `0.8`;
`incompatibleTypes` carries the two type names. -/
inductive RelReason where
  | similarityTooLow (similarity : ℚ)
  | incompatibleTypes (source_type target_type : String)
  | validated
deriving DecidableEq, Repr

/-- `SAGE.validate_relation` (`src/core/sage.py:210-236`): reject when
`similarity < 0.8` (the instance constant `SIMILARITY_THRESHOLD`);
otherwise reject unless the ordered pair or its reverse occurs in
`compatible_pairs`; otherwise accept. -/
def validate_relation (source_type target_type : String) (similarity : ℚ) :
    Bool × RelReason :=
  if similarity < 0.8 then
    (false, RelReason.similarityTooLow similarity)
  else if compatible_pairs.contains (source_type, target_type)
      || compatible_pairs.contains (target_type, source_type) then
    (true, RelReason.validated)
  else
    (false, RelReason.incompatibleTypes source_type target_type)

end SAGE

namespace Kronos

/-- `self.trust_half_life_days` (`src/core/kronos/kronos_engine.py:28`). -/
noncomputable def trust_half_life_days : ℝ := 30

/-- `self.min_trust` (`src/core/kronos/kronos_engine.py:29`). -/
noncomputable def min_trust : ℝ := 0.1

/-- `KronosEngine.calculate_trust_decay`
(`src/core/kronos/kronos_engine.py:35-58`): elapsed seconds divided by
86400 give `delta` days; decay constant `ln 2 / half_life`; result
`max(min_trust, initial_trust * exp(-decay_constant * delta))`.
Timestamps are rational seconds; `current_time` is explicit. -/
noncomputable def calculate_trust_decay (initial_trust : ℝ)
    (created_at current_time : ℚ) : ℝ :=
  let delta : ℝ := ((current_time - created_at : ℚ) : ℝ) / 86400
  let decay_constant : ℝ := Real.log 2 / trust_half_life_days
  max min_trust (initial_trust * Real.exp (-decay_constant * delta))

/-- `self.drift_threshold_minor` (`src/core/kronos/kronos_engine.py:32`). -/
noncomputable def drift_threshold_minor : ℝ := 0.05

/-- `self.drift_threshold_major` (`src/core/kronos/kronos_engine.py:33`). -/
noncomputable def drift_threshold_major : ℝ := 0.15

open Classical in
/-- `KronosEngine.calculate_coherence_drift`
(`src/core/kronos/kronos_engine.py:60-89`): cosine similarity is the
dot product divided by the product of the norms, with no guard against
a zero divisor (in this total embedding of real arithmetic, division
by zero yields 0); drift is `1 - similarity`, classified against the
two thresholds. -/
noncomputable def calculate_coherence_drift (baseline_vector current_vector : List ℝ) :
    ℝ × String :=
  let similarity := dotList baseline_vector current_vector
    / (vecNorm baseline_vector * vecNorm current_vector)
  let drift := 1 - similarity
  (drift,
    if drift < drift_threshold_minor then "stable"
    else if drift < drift_threshold_major then "minor_drift"
    else "major_drift")

end Kronos

namespace Core

/-- A normalized field map (`data` dict): field name to scalar value,
rendered as strings.  Governance never inspects the values. -/
abbrev FieldMap := List (String × String)

/-- One row of the `objects` table (`src/core/storage.py:46-54`). -/
structure ObjRow where
  object_type : String
  data : FieldMap
  created_at : ℚ
  updated_at : ℚ

/-- One row of the `vectors` table (`src/core/storage.py:57-66`); the
serialized blob is modelled by the vector itself. -/
structure VecRow where
  embedding : List ℝ
  model : String
  dimension : ℕ
  created_at : ℚ

/-- One row of the `sage_metadata` table (`src/core/storage.py:69-78`). -/
structure SageMetaRow where
  coherence_score : ℝ
  trust_score : ℚ
  validated : Bool
  validated_at : ℚ

/-- One row of the `relations` table (`src/core/storage.py:81-92`). -/
structure RelRow where
  source_id : String
  target_id : String
  relation_type : String
  similarity_score : ℚ

/-- The `metadata` dict attached to a provenance event by
`Reasoner.ingest`: either the denial record of
`src/core/reasoner.py:90-96` or the admission record of
`src/core/reasoner.py:113-119`. -/
inductive ProvMeta where
  | denied (object_type : String) (reason : SAGE.Rationale)
      (coherence_score : ℝ) (trust_score : ℚ)
  | ingestInfo (object_type : String) (validated : Bool)
      (decision : String) (rationale : SAGE.Rationale)

/-- One row of the `provenance` table (`src/core/storage.py:95-105`). -/
structure ProvRow where
  object_id : String
  action : String
  actor : String
  metadata : ProvMeta

/-- The ingest metadata of a `kronos_events` row
(`src/core/reasoner.py:129-133`). -/
structure KronosMeta where
  actor : String
  decision : String
  object_type : String

/-- One row of the `kronos_events` table written by
`TemporalIndexer.record_event` (`src/core/kronos/temporal_indexer.py`). -/
structure KronosRow where
  object_id : String
  event_type : String
  vector : Option (List ℝ)
  coherence_score : ℝ
  trust_score : ℚ
  metadata : KronosMeta

/-- The sqlite database of `CoreStorage`, as one record of tables.
Tables keyed by `object_id` (objects, vectors, sage_metadata) are
association lists; append-only tables (relations, provenance,
kronos_events) are lists in insertion order. -/
structure Store where
  objects : List (String × ObjRow)
  vectors : List (String × VecRow)
  sage_metadata : List (String × SageMetaRow)
  relations : List RelRow
  provenance : List ProvRow
  kronos_events : List KronosRow

/-- The freshly initialised database. -/
def emptyStore : Store := ⟨[], [], [], [], [], []⟩

/-- `INSERT OR REPLACE` into a table keyed by object id. -/
def upsert {α : Type} (k : String) (v : α) (t : List (String × α)) :
    List (String × α) :=
  (k, v) :: t.filter (fun p => p.1 ≠ k)

/-- `CoreStorage.save_object` (`src/core/storage.py:115-129`); the
caller supplies the fresh uuid and the current time. -/
def save_object (st : Store) (object_id : String) (object_type : String)
    (data : FieldMap) (now : ℚ) : Store :=
  { st with objects := upsert object_id ⟨object_type, data, now, now⟩ st.objects }

/-- `CoreStorage.save_vector` (`src/core/storage.py:175-184`). -/
def save_vector (st : Store) (object_id : String) (embedding : List ℝ)
    (model : String) (dimension : ℕ) (now : ℚ) : Store :=
  { st with vectors := upsert object_id ⟨embedding, model, dimension, now⟩ st.vectors }

/-- `CoreStorage.save_sage_metadata` (`src/core/storage.py:210-220`). -/
def save_sage_metadata (st : Store) (object_id : String) (coherence_score : ℝ)
    (trust_score : ℚ) (validated : Bool) (now : ℚ) : Store :=
  { st with sage_metadata :=
      upsert object_id ⟨coherence_score, trust_score, validated, now⟩ st.sage_metadata }

/-- `CoreStorage.get_sage_metadata` (`src/core/storage.py:222-238`):
the row for the object id, or `none` when absent. -/
def get_sage_metadata (st : Store) (object_id : String) : Option SageMetaRow :=
  (st.sage_metadata.find? (fun p => p.1 == object_id)).map Prod.snd

/-- `CoreStorage.save_relation` (`src/core/storage.py:242-254`). -/
def save_relation (st : Store) (source_id target_id relation_type : String)
    (similarity_score : ℚ) : Store :=
  { st with relations := st.relations ++ [⟨source_id, target_id, relation_type, similarity_score⟩] }

/-- `CoreStorage.log_provenance` (`src/core/storage.py:282-294`):
appends one event row. -/
def log_provenance (st : Store) (object_id action actor : String)
    (metadata : ProvMeta) : Store :=
  { st with provenance := st.provenance ++ [⟨object_id, action, actor, metadata⟩] }

/-- `CoreStorage.get_provenance` restricted to row selection
(`src/core/storage.py:296-317`): all provenance rows of the object, in
insertion order (the SQL orders them newest-first for display; the
multiset of rows is what the claims quantify over). -/
def provFor (st : Store) (object_id : String) : List ProvRow :=
  st.provenance.filter (fun r => r.object_id == object_id)

/-- `TemporalIndexer.record_event`
(`src/core/kronos/temporal_indexer.py:32-88`): appends one temporal
event row. -/
def record_event (st : Store) (object_id event_type : String)
    (vector : Option (List ℝ)) (coherence_score : ℝ) (trust_score : ℚ)
    (metadata : KronosMeta) : Store :=
  { st with kronos_events :=
      st.kronos_events ++ [⟨object_id, event_type, vector, coherence_score, trust_score, metadata⟩] }

/-- The `kronos_events` rows of one object, in insertion order. -/
def kronosFor (st : Store) (object_id : String) : List KronosRow :=
  st.kronos_events.filter (fun r => r.object_id == object_id)

/-- The collaborators `Reasoner.ingest` calls out to, supplied as
explicit parameters of the embedding:

* `validate` is `Ontology.validate_and_normalize` (schema validation,
  out of scope per the spec, returning `(is_valid, normalized, errors)`);
* `embed` is `embed_object` (the external embedding model applied to
  the dict of `object_type` and the normalized data);
* `sage_validate` is the governance decision engine consulted at
  `src/core/reasoner.py:76-80`.  It is a parameter so that the
  decision enforcement of the orchestrator can be verified for every
  decision the engine interface can return; `SAGE.validate_object` is
  its concrete instance;
* `neighbors` is the outcome of `semantic_neighbors` (external
  vector search) as consumed by `Reasoner._find_relations`:
  candidate ids paired with similarity scores;
* `newObjectId` is the uuid that `save_object` would mint;
* `now` is the wall clock. -/
structure IngestEnv where
  validate : String → FieldMap → Bool × FieldMap × List String
  embed : String → FieldMap → List ℝ
  sage_validate : List String → Option (List ℝ) → List SAGE.ProvEvent → ℚ → SAGE.SageResult
  neighbors : List (String × ℚ)
  newObjectId : String
  now : ℚ

/-- The exceptions `Reasoner.ingest` raises, as a sum type: the
`Ontology validation failed` `ValueError` carrying the full error
list, and the `SAGE denied object` `ValueError` carrying the
rationale. -/
inductive IngestError where
  | validationError (errors : List String)
  | governanceDenied (rationale : SAGE.Rationale)

/-- `Reasoner._find_relations` (`src/core/reasoner.py:264-302`)
restricted to its storage effect: each neighbor whose similarity
passes `SAGE.validate_relation` (applied to the own type of the object on
both sides, as the source does) is stored as one relation row. -/
def find_relations (env : IngestEnv) (st : Store) (object_id object_type : String) :
    Store :=
  env.neighbors.foldl
    (fun s p =>
      if (SAGE.validate_relation object_type object_type p.2).1 then
        save_relation s object_id p.1 "semantic_similarity" p.2
      else s)
    st

/-- `Reasoner.ingest` (`src/core/reasoner.py:34-140`) as a pure state
transformer.  Pipeline: schema validation (raising before any side
effect on failure), object row, embedding, vector row, governance
validation over an empty provenance chain, then either the denial path
(a `denied` provenance event followed by the raise) or the admission
path (governance metadata, `ingested`/`flagged` provenance event,
`baseline` temporal event, relation inference).  The final
`self.reason(object_id)` call is read-only and is represented by
returning the object id. -/
def ingest (env : IngestEnv) (st : Store) (object_type : String)
    (data : FieldMap) (actor : String) : Store × Except IngestError String :=
  let validated := env.validate object_type data
  if validated.1 = true then
    let normalized := validated.2.1
    let object_id := env.newObjectId
    let st1 := save_object st object_id object_type normalized env.now
    let embedding := env.embed object_type normalized
    let st2 := save_vector st1 object_id embedding "all-MiniLM-L6-v2" embedding.length env.now
    let sage := env.sage_validate ["id", "object_type", "data"] (some embedding) [] env.now
    if sage.decision = "deny" then
      let st3 := log_provenance st2 object_id "denied" actor
        (ProvMeta.denied object_type sage.rationale sage.coherence_score sage.trust_score)
      (st3, Except.error (IngestError.governanceDenied sage.rationale))
    else
      let st3 := save_sage_metadata st2 object_id sage.coherence_score sage.trust_score
        sage.validated env.now
      let action := if sage.decision = "allow" then "ingested" else "flagged"
      let st4 := log_provenance st3 object_id action actor
        (ProvMeta.ingestInfo object_type sage.validated sage.decision sage.rationale)
      let st5 := record_event st4 object_id "baseline" (some embedding)
        sage.coherence_score sage.trust_score ⟨actor, sage.decision, object_type⟩
      let st6 := find_relations env st5 object_id object_type
      (st6, Except.ok object_id)
  else
    (st, Except.error (IngestError.validationError validated.2.2))

end Core

/-- The required-field list as the spec and claim C3 word it: `type`
and `data`.  Kept solely for comparison against `SAGE.required_fields`
from the source, which reads `object_type` instead of `type`. -/
def required_fields_claimed : List String := ["type", "data"]

/-- Coherence as claim C3 words it: identical to
`SAGE.coherence_check` except that completeness counts the claimed
field list `type`, `data`.  Kept solely for comparison with the source
function. -/
noncomputable def coherence_check_claimed (objKeys : List String)
    (vector : Option (List ℝ)) : ℝ :=
  round3R (((required_fields_claimed.countP (fun f => objKeys.contains f) : ℕ) : ℝ)
      / ((required_fields_claimed.length : ℕ) : ℝ) * 0.6
    + SAGE.vector_quality vector * 0.4)

/-- Trust as claim C4 words it: the exact weighted blend
`0.4 * validation + 0.4 * credibility + 0.2 * age`, with no final
rounding step.  Kept solely for comparison with `SAGE.trust_score`
from the source, which rounds the blend to 3 decimal places. -/
def trust_score_claimed (now : ℚ) (chain : List SAGE.ProvEvent) : ℚ :=
  if chain.isEmpty then 0.5
  else
    0.4 * min 1 ((chain.countP (fun e => e.action == "validated") : ℚ) / 3)
      + 0.4 * ((chain.countP (fun e => SAGE.trusted_sources.contains e.actor) : ℚ)
          / ((max chain.length 1 : ℕ) : ℚ))
      + 0.2 * SAGE.age_score now chain

/-- A concrete governance result with decision `deny`, used to witness
the denial-path theorem. -/
noncomputable def c2SageR : SAGE.SageResult :=
  ⟨0.3, 0.2, false, "deny", SAGE.Rationale.belowThreshold 0.3 0.2⟩

/-- A concrete ingestion environment whose schema validator accepts
and whose governance engine denies, used to witness the denial-path
theorem. -/
noncomputable def c2Env : Core.IngestEnv :=
  { validate := fun _ d => (true, d, [])
  , embed := fun _ _ => [1, 0]
  , sage_validate := fun _ _ _ _ => c2SageR
  , neighbors := []
  , newObjectId := "obj-1"
  , now := 0 }

/-- A concrete ingestion environment whose schema validator rejects
with two field errors, used to witness the validation-failure
theorem. -/
noncomputable def c9Env : Core.IngestEnv :=
  { validate := fun _ _ => (false, [], ["title: required field missing", "amount: not a number"])
  , embed := fun _ _ => []
  , sage_validate := fun _ _ _ _ => c2SageR
  , neighbors := []
  , newObjectId := "obj-2"
  , now := 0 }

end Sov

/-!
Helper lemmas shared by the claim theorems.
-/

namespace Sov

/-- Rounding to 3 decimals commutes with casting a rational to the
reals. -/
theorem round3R_ratCast (q : ℚ) : round3R (q : ℝ) = ((round3 q : ℚ) : ℝ) := by
  unfold round3R round3
  have h : ((q : ℝ) * 1000) = ((q * 1000 : ℚ) : ℝ) := by push_cast; ring
  rw [h, Rat.round_cast]
  push_cast
  ring

/-- Rounding to 3 decimals preserves nonnegativity. -/
theorem round3R_nonneg {x : ℝ} (h : 0 ≤ x) : 0 ≤ round3R x := by
  unfold round3R
  have h1 : (0 : ℤ) ≤ round (x * 1000) := by
    rw [round_eq]
    have h2 : (0 : ℤ) = ⌊(1/2 : ℝ)⌋ := by norm_num
    rw [h2]
    exact Int.floor_mono (by linarith)
  have h3 : (0 : ℝ) ≤ ((round (x * 1000) : ℤ) : ℝ) := by exact_mod_cast h1
  linarith

/-- Rounding to 3 decimals preserves the bound 1. -/
theorem round3R_le_one {x : ℝ} (h : x ≤ 1) : round3R x ≤ 1 := by
  unfold round3R
  have h1 : round (x * 1000) ≤ (1000 : ℤ) := by
    rw [round_eq]
    have h2 : (1000 : ℤ) = ⌊(2001/2 : ℝ)⌋ := by norm_num
    rw [h2]
    exact Int.floor_mono (by linarith)
  have h3 : ((round (x * 1000) : ℤ) : ℝ) ≤ 1000 := by exact_mod_cast h1
  linarith

/-- `SAGE.coherence_check` written with the length of the required
field list evaluated and the weights in front. -/
theorem coherence_check_eq (objKeys : List String) (vector : Option (List ℝ)) :
    SAGE.coherence_check objKeys vector =
      round3R (0.6 * (((SAGE.required_fields.countP (fun f => objKeys.contains f) : ℕ) : ℝ) / 2)
        + 0.4 * SAGE.vector_quality vector) := by
  simp only [SAGE.coherence_check, SAGE.required_fields]
  norm_num
  congr 1
  ring

/-- Coherence of a fully complete object with a unit-vector embedding:
`round(0.6 + 0.4 * min(1, 1/1.5), 3) = 0.867`. -/
theorem coherence_complete_unit :
    SAGE.coherence_check ["object_type", "data"] (some [(1 : ℝ), 0]) = ((867/1000 : ℚ) : ℝ) := by
  have h1 : SAGE.coherence_check ["object_type", "data"] (some [(1 : ℝ), 0])
      = round3R (((13/15 : ℚ) : ℝ)) := by
    have hn : vecNorm [(1 : ℝ), 0] = 1 := by simp [vecNorm, sumSq]
    simp only [SAGE.coherence_check, SAGE.vector_quality, hn]
    norm_num [SAGE.required_fields]
  rw [h1, round3R_ratCast]
  norm_num [round3, round_eq]

/-- The neutral prior: an empty provenance chain scores trust 0.5. -/
theorem trust_score_empty (now : ℚ) : SAGE.trust_score now [] = 0.5 := by
  simp [SAGE.trust_score]

/-- A sum of squares is nonnegative. -/
theorem sumSq_nonneg (v : List ℝ) : 0 ≤ sumSq v := by
  apply List.sum_nonneg
  intro x hx
  obtain ⟨y, -, rfl⟩ := List.mem_map.1 hx
  positivity

/-- A vector with a nonzero entry has positive Euclidean norm. -/
theorem vecNorm_pos {v : List ℝ} {x : ℝ} (hx : x ∈ v) (hx0 : x ≠ 0) : 0 < vecNorm v := by
  apply Real.sqrt_pos.2
  have hsq : x ^ 2 ∈ v.map (fun y => y ^ 2) := List.mem_map.2 ⟨x, hx, rfl⟩
  have hle : x ^ 2 ≤ sumSq v := by
    apply List.single_le_sum ?_ _ hsq
    intro y hy
    obtain ⟨z, -, rfl⟩ := List.mem_map.1 hy
    positivity
  have hpos : 0 < x ^ 2 := by positivity
  exact lt_of_lt_of_le hpos hle

/-!
The claim theorems.
-/

/-- C1: the governance decision is tri-state and first-match-wins: the
decision of `validate_object` is `allow` iff coherence ≥ 0.8 and trust
≥ 0.7, `flag` iff that fails while coherence ≥ 0.6 and trust ≥ 0.5,
and `deny` iff both fail; and a fully complete object with a
unit-vector embedding and an empty provenance chain (trust 0.5) is
flagged, not allowed. -/
theorem sage_decision_tristate :
    (∀ (objKeys : List String) (vector : Option (List ℝ))
        (provenance : List SAGE.ProvEvent) (now : ℚ),
      ((SAGE.validate_object objKeys vector provenance now).decision = "allow" ↔
        SAGE.coherence_check objKeys vector ≥ 0.8 ∧ SAGE.trust_score now provenance ≥ 0.7) ∧
      ((SAGE.validate_object objKeys vector provenance now).decision = "flag" ↔
        (SAGE.coherence_check objKeys vector < 0.8 ∨ SAGE.trust_score now provenance < 0.7) ∧
          (SAGE.coherence_check objKeys vector ≥ 0.6 ∧ SAGE.trust_score now provenance ≥ 0.5)) ∧
      ((SAGE.validate_object objKeys vector provenance now).decision = "deny" ↔
        (SAGE.coherence_check objKeys vector < 0.8 ∨ SAGE.trust_score now provenance < 0.7) ∧
          (SAGE.coherence_check objKeys vector < 0.6 ∨ SAGE.trust_score now provenance < 0.5))) ∧
    (SAGE.validate_object ["object_type", "data"] (some [(1 : ℝ), 0]) [] 0).decision = "flag" := by
  constructor
  · intro objKeys vector provenance now
    simp only [SAGE.validate_object]
    split_ifs with h1 h2
    · refine ⟨iff_of_true rfl h1, iff_of_false (by simp) ?_, iff_of_false (by simp) ?_⟩
      · rintro ⟨h | h, -⟩
        · exact absurd h (not_lt.2 h1.1)
        · exact absurd h (not_lt.2 h1.2)
      · rintro ⟨h | h, -⟩
        · exact absurd h (not_lt.2 h1.1)
        · exact absurd h (not_lt.2 h1.2)
    · refine ⟨iff_of_false (by simp) h1, iff_of_true rfl ⟨?_, h2⟩, iff_of_false (by simp) ?_⟩
      · rcases not_and_or.mp h1 with h | h
        · exact Or.inl (not_le.mp h)
        · exact Or.inr (not_le.mp h)
      · rintro ⟨-, h | h⟩
        · exact absurd h (not_lt.2 h2.1)
        · exact absurd h (not_lt.2 h2.2)
    · refine ⟨iff_of_false (by simp) h1, iff_of_false (by simp) ?_, iff_of_true rfl ⟨?_, ?_⟩⟩
      · rintro ⟨-, h⟩
        exact h2 h
      · rcases not_and_or.mp h1 with h | h
        · exact Or.inl (not_le.mp h)
        · exact Or.inr (not_le.mp h)
      · rcases not_and_or.mp h2 with h | h
        · exact Or.inl (not_le.mp h)
        · exact Or.inr (not_le.mp h)
  · have ht : SAGE.trust_score 0 [] = 0.5 := trust_score_empty 0
    simp only [SAGE.validate_object, coherence_complete_unit, ht]
    rw [if_neg, if_pos]
    · constructor
      · norm_num
      · norm_num
    · rintro ⟨-, h⟩
      norm_num at h

/-- C2: an admission that ends in a `deny` decision writes no
governance-metadata row (`get_sage_metadata` stays `none` for the
fresh object id), appends exactly one `denied` provenance event
carrying the rationale and both scores, records no baseline temporal
event, and fails with the governance-denied error; the error is
returned together with a store that already contains the denied
event, so the audit write precedes the raise. -/
theorem ingest_deny_audit
    (env : Core.IngestEnv) (st : Core.Store) (object_type : String)
    (data : Core.FieldMap) (actor : String) (normalized : Core.FieldMap)
    (errs : List String) (sageR : SAGE.SageResult)
    (hval : env.validate object_type data = (true, normalized, errs))
    (hsage : env.sage_validate ["id", "object_type", "data"]
        (some (env.embed object_type normalized)) [] env.now = sageR)
    (hdeny : sageR.decision = "deny")
    (hmeta : Core.get_sage_metadata st env.newObjectId = none)
    (hprov : Core.provFor st env.newObjectId = [])
    (hkron : Core.kronosFor st env.newObjectId = []) :
    Core.get_sage_metadata (Core.ingest env st object_type data actor).1 env.newObjectId
        = none ∧
    Core.provFor (Core.ingest env st object_type data actor).1 env.newObjectId =
      [⟨env.newObjectId, "denied", actor,
        Core.ProvMeta.denied object_type sageR.rationale sageR.coherence_score
          sageR.trust_score⟩] ∧
    Core.kronosFor (Core.ingest env st object_type data actor).1 env.newObjectId = [] ∧
    (Core.ingest env st object_type data actor).2 =
      Except.error (Core.IngestError.governanceDenied sageR.rationale) := by
  have hfind : st.sage_metadata.find? (fun p => p.1 == env.newObjectId) = none := by
    simpa [Core.get_sage_metadata] using hmeta
  have hprov2 : st.provenance.filter (fun r => r.object_id == env.newObjectId) = [] := by
    simpa [Core.provFor] using hprov
  have hkron2 : st.kronos_events.filter (fun r => r.object_id == env.newObjectId) = [] := by
    simpa [Core.kronosFor] using hkron
  simp only [Core.ingest, hval, hsage, hdeny]
  norm_num [Core.get_sage_metadata, Core.provFor, Core.kronosFor, Core.log_provenance,
    Core.save_vector, Core.save_object, List.filter_append, hfind, hprov2, hkron2]

/-- Witness for C2: a concrete environment whose validator accepts and
whose governance engine denies, applied to the empty store. -/
theorem ingest_deny_audit_witness :
    c2Env.validate "Note" [] = (true, [], []) ∧
    c2Env.sage_validate ["id", "object_type", "data"]
        (some (c2Env.embed "Note" [])) [] c2Env.now = c2SageR ∧
    c2SageR.decision = "deny" ∧
    Core.get_sage_metadata Core.emptyStore c2Env.newObjectId = none ∧
    Core.provFor Core.emptyStore c2Env.newObjectId = [] ∧
    Core.kronosFor Core.emptyStore c2Env.newObjectId = [] ∧
    (Core.get_sage_metadata (Core.ingest c2Env Core.emptyStore "Note" [] "tester").1
        c2Env.newObjectId = none ∧
      Core.provFor (Core.ingest c2Env Core.emptyStore "Note" [] "tester").1 c2Env.newObjectId =
        [⟨c2Env.newObjectId, "denied", "tester",
          Core.ProvMeta.denied "Note" c2SageR.rationale c2SageR.coherence_score
            c2SageR.trust_score⟩] ∧
      Core.kronosFor (Core.ingest c2Env Core.emptyStore "Note" [] "tester").1
        c2Env.newObjectId = [] ∧
      (Core.ingest c2Env Core.emptyStore "Note" [] "tester").2 =
        Except.error (Core.IngestError.governanceDenied c2SageR.rationale)) :=
  ⟨rfl, rfl, rfl, rfl, rfl, rfl,
    ingest_deny_audit c2Env Core.emptyStore "Note" [] "tester" [] [] c2SageR
      rfl rfl rfl rfl rfl rfl⟩

/-- C3 counterexample: on an object whose only top-level key is
`type`, with no vector, the source computes coherence
`round(0 * 0.6 + 1 * 0.4, 3) = 0.4`, while the formula of the claim
(required fields `type`, `data`) yields
`round(0.5 * 0.6 + 1 * 0.4, 3) = 0.7`: the claimed field list is
wrong, the code requires `object_type`. -/
theorem coherence_required_fields_cex :
    SAGE.coherence_check ["type"] none = ((2/5 : ℚ) : ℝ) ∧
    coherence_check_claimed ["type"] none = ((7/10 : ℚ) : ℝ) ∧
    ((2/5 : ℚ) : ℝ) ≠ ((7/10 : ℚ) : ℝ) := by
  refine ⟨?_, ?_, by norm_num⟩
  · have hcount : List.countP (fun f => List.contains ["type"] f) SAGE.required_fields = 0 := rfl
    have h1 : SAGE.coherence_check ["type"] none = round3R (((2/5 : ℚ) : ℝ)) := by
      simp only [SAGE.coherence_check, SAGE.vector_quality, hcount]
      norm_num [SAGE.required_fields]
    rw [h1, round3R_ratCast]
    norm_num [round3, round_eq]
  · have hcount : List.countP (fun f => List.contains ["type"] f) required_fields_claimed = 1 := rfl
    have h1 : coherence_check_claimed ["type"] none = round3R (((7/10 : ℚ) : ℝ)) := by
      simp only [coherence_check_claimed, SAGE.vector_quality, hcount]
      norm_num [required_fields_claimed]
    rw [h1, round3R_ratCast]
    norm_num [round3, round_eq]

/-- C3 as amended: the coherence score equals 0.6 times the fraction
of the required top-level fields `object_type` and `data` present in
the object plus 0.4 times the vector-quality proxy (the vector
magnitude divided by 1.5 and clipped to 1.0, or 1.0 when no vector is
supplied), rounded to 3 decimal places, and it lies in the interval
from 0 to 1. -/
theorem coherence_check_formula (objKeys : List String) (vector : Option (List ℝ)) :
    SAGE.coherence_check objKeys vector =
      round3R (0.6 * (((SAGE.required_fields.countP (fun f => objKeys.contains f) : ℕ) : ℝ) / 2)
        + 0.4 * SAGE.vector_quality vector) ∧
    0 ≤ SAGE.coherence_check objKeys vector ∧ SAGE.coherence_check objKeys vector ≤ 1 := by
  have hq0 : 0 ≤ SAGE.vector_quality vector := by
    cases vector with
    | none => norm_num [SAGE.vector_quality]
    | some v =>
        simp only [SAGE.vector_quality, vecNorm]
        exact le_min (by norm_num) (div_nonneg (Real.sqrt_nonneg _) (by norm_num))
  have hq1 : SAGE.vector_quality vector ≤ 1 := by
    cases vector with
    | none => norm_num [SAGE.vector_quality]
    | some v => exact min_le_left _ _
  have hcount2 : (SAGE.required_fields.countP (fun f => objKeys.contains f)) ≤ 2 := by
    have h := List.countP_le_length (p := fun f => objKeys.contains f)
      (l := SAGE.required_fields)
    simpa [SAGE.required_fields] using h
  have hn0 : (0 : ℝ) ≤ ((SAGE.required_fields.countP (fun f => objKeys.contains f) : ℕ) : ℝ) :=
    Nat.cast_nonneg _
  have hn2 : ((SAGE.required_fields.countP (fun f => objKeys.contains f) : ℕ) : ℝ) ≤ 2 := by
    exact_mod_cast hcount2
  refine ⟨coherence_check_eq objKeys vector, ?_, ?_⟩
  · rw [coherence_check_eq]
    exact round3R_nonneg (by nlinarith)
  · rw [coherence_check_eq]
    exact round3R_le_one (by nlinarith)

/-- C4 counterexample: for the chain of one `validated` event by an
untrusted actor with age 0, the source returns
`round(0.4 / 3, 3) = 0.133`, while the exact weighted blend the claim
states is `2/15 = 0.1333...`: the claim omits the final rounding to 3
decimal places. -/
theorem trust_score_rounding_cex :
    SAGE.trust_score 0 [⟨"validated", "nobody", some 0⟩] = 133/1000 ∧
    trust_score_claimed 0 [⟨"validated", "nobody", some 0⟩] = 2/15 ∧
    (133/1000 : ℚ) ≠ 2/15 := by
  refine ⟨?_, ?_, by norm_num⟩
  · simp [SAGE.trust_score, SAGE.age_score, SAGE.trusted_sources, List.countP, List.countP.go]
    norm_num [round3, round_eq]
  · simp [trust_score_claimed, SAGE.age_score, SAGE.trusted_sources, List.countP, List.countP.go]
    norm_num

/-- C4 as amended: an empty provenance chain scores trust exactly 0.5;
otherwise trust equals the rounding to 3 decimal places of 0.4 times
the `validated` count capped at 3 and normalized, plus 0.4 times the
fraction of actors drawn from the trusted allowlist, plus 0.2 times
the age in days of the oldest event capped at 30 days and normalized
(stated for a chain whose oldest event has a parseable timestamp). -/
theorem trust_score_formula :
    (∀ now : ℚ, SAGE.trust_score now [] = 0.5) ∧
    (∀ (now : ℚ) (chain : List SAGE.ProvEvent) (e : SAGE.ProvEvent) (ts : ℚ),
      chain.getLast? = some e → e.timestamp = some ts →
      SAGE.trust_score now chain =
        round3 (0.4 * min 1 ((chain.countP (fun ev => ev.action == "validated") : ℚ) / 3)
          + 0.4 * ((chain.countP (fun ev => SAGE.trusted_sources.contains ev.actor) : ℚ)
              / (chain.length : ℚ))
          + 0.2 * min 1 (((⌊(now - ts) / 86400⌋ : ℤ) : ℚ) / 30))) := by
  constructor
  · intro now
    simp [SAGE.trust_score]
  · intro now chain e ts hlast hts
    cases chain with
    | nil => simp at hlast
    | cons a l =>
        have hage : SAGE.age_score now (a :: l) = min 1 (((⌊(now - ts) / 86400⌋ : ℤ) : ℚ) / 30) := by
          simp only [SAGE.age_score, hlast, hts]
        have hmax : max (a :: l).length 1 = (a :: l).length :=
          Nat.max_eq_left (Nat.succ_le_succ (Nat.zero_le _))
        simp only [SAGE.trust_score, List.isEmpty_cons, hage, hmax,
          Bool.false_eq_true, if_false]
        congr 1
        ring

/-- Witness for C4: a chain of one validated event by a trusted actor,
40 days old. -/
theorem trust_score_formula_witness :
    (([⟨"validated", "SAGE", some 0⟩] : List SAGE.ProvEvent).getLast?
        = some ⟨"validated", "SAGE", some 0⟩) ∧
    (SAGE.ProvEvent.mk "validated" "SAGE" (some 0)).timestamp = some 0 ∧
    SAGE.trust_score 3456000 [⟨"validated", "SAGE", some 0⟩] =
      round3 (0.4 * min 1
          ((List.countP (fun ev => ev.action == "validated")
            [(⟨"validated", "SAGE", some 0⟩ : SAGE.ProvEvent)] : ℚ) / 3)
        + 0.4 * ((List.countP (fun ev => SAGE.trusted_sources.contains ev.actor)
            [(⟨"validated", "SAGE", some 0⟩ : SAGE.ProvEvent)] : ℚ)
            / (([(⟨"validated", "SAGE", some 0⟩ : SAGE.ProvEvent)] : List SAGE.ProvEvent).length : ℚ))
        + 0.2 * min 1 (((⌊(3456000 - 0 : ℚ) / 86400⌋ : ℤ) : ℚ) / 30)) :=
  ⟨rfl, rfl, trust_score_formula.2 3456000 _ _ 0 rfl rfl⟩

/-- C5: trust decay follows
`max(min_trust, initial_trust * exp(-(ln 2 / half_life) * delta_days))`
with half-life 30 days and floor 0.1, where `delta_days` is the
elapsed seconds between `created_at` and `current_time` divided by
86400; and with initial trust 0.8 evaluated exactly 30 days after
creation the result is exactly 0.4 in real arithmetic. -/
theorem calculate_trust_decay_formula :
    (∀ (initial_trust : ℝ) (created_at current_time : ℚ),
      Kronos.calculate_trust_decay initial_trust created_at current_time =
        max 0.1 (initial_trust *
          Real.exp (-(Real.log 2 / 30) * (((current_time : ℝ) - (created_at : ℝ)) / 86400)))) ∧
    Kronos.calculate_trust_decay 0.8 0 2592000 = 0.4 := by
  constructor
  · intro initial_trust created_at current_time
    simp only [Kronos.calculate_trust_decay, Kronos.min_trust, Kronos.trust_half_life_days]
    have h : ((current_time - created_at : ℚ) : ℝ) = (current_time : ℝ) - (created_at : ℝ) := by
      push_cast
      ring
    rw [h]
  · simp only [Kronos.calculate_trust_decay]
    have h30 : (((2592000 - 0 : ℚ) : ℝ) / 86400) = 30 := by norm_num
    rw [h30]
    have h2 : -(Real.log 2 / Kronos.trust_half_life_days) * 30 = -Real.log 2 := by
      simp only [Kronos.trust_half_life_days]
      ring
    rw [h2, Real.exp_neg, Real.exp_log (by norm_num : (0:ℝ) < 2)]
    simp only [Kronos.min_trust]
    rw [max_eq_right (by norm_num)]
    norm_num

/-- C6: coherence drift equals 1 minus the cosine similarity of the
two vectors, classified `stable` iff drift < 0.05, `minor_drift` iff
0.05 ≤ drift < 0.15 and `major_drift` iff drift ≥ 0.15; and the
baseline `[1,0]` against the current `[0,1]` has cosine similarity 0,
drift 1, classification `major_drift`. -/
theorem coherence_drift_classification :
    (∀ (baseline current : List ℝ),
      (Kronos.calculate_coherence_drift baseline current).1 =
        1 - dotList baseline current / (vecNorm baseline * vecNorm current) ∧
      ((Kronos.calculate_coherence_drift baseline current).2 = "stable" ↔
        (Kronos.calculate_coherence_drift baseline current).1 < 0.05) ∧
      ((Kronos.calculate_coherence_drift baseline current).2 = "minor_drift" ↔
        0.05 ≤ (Kronos.calculate_coherence_drift baseline current).1 ∧
          (Kronos.calculate_coherence_drift baseline current).1 < 0.15) ∧
      ((Kronos.calculate_coherence_drift baseline current).2 = "major_drift" ↔
        0.15 ≤ (Kronos.calculate_coherence_drift baseline current).1)) ∧
    (dotList [(1 : ℝ), 0] [(0 : ℝ), 1] / (vecNorm [(1 : ℝ), 0] * vecNorm [(0 : ℝ), 1]) = 0 ∧
      Kronos.calculate_coherence_drift [(1 : ℝ), 0] [(0 : ℝ), 1] = (1, "major_drift")) := by
  constructor
  · intro baseline current
    simp only [Kronos.calculate_coherence_drift, Kronos.drift_threshold_minor,
      Kronos.drift_threshold_major]
    split_ifs with h1 h2
    · exact ⟨trivial, iff_of_true rfl h1, iff_of_false (by simp) (fun h => absurd h1 (not_lt.2 h.1)),
        iff_of_false (by simp) (fun h => absurd h1 (not_lt.2 (le_trans (by norm_num) h)))⟩
    · exact ⟨trivial, iff_of_false (by simp) h1, iff_of_true rfl ⟨not_lt.1 h1, h2⟩,
        iff_of_false (by simp) (fun h => absurd h2 (not_lt.2 h))⟩
    · exact ⟨trivial, iff_of_false (by simp) h1, iff_of_false (by simp) (fun h => absurd h.2 h2),
        iff_of_true rfl (not_lt.1 h2)⟩
  · have hd : dotList [(1 : ℝ), 0] [(0 : ℝ), 1] = 0 := by simp [dotList]
    have hn1 : vecNorm [(1 : ℝ), 0] = 1 := by simp [vecNorm, sumSq]
    have hn2 : vecNorm [(0 : ℝ), 1] = 1 := by simp [vecNorm, sumSq]
    constructor
    · rw [hd, hn1, hn2]
      norm_num
    · simp only [Kronos.calculate_coherence_drift, hd, hn1, hn2]
      norm_num [Kronos.drift_threshold_minor, Kronos.drift_threshold_major]

/-- C7 counterexample: two objects of the same type `Forecast` with
similarity 0.9 (well above the 0.8 threshold) are rejected as
incompatible, because the pair appears nowhere in the compatibility
table: same-type pairs are not always compatible. -/
theorem validate_relation_same_type_cex :
    SAGE.validate_relation "Forecast" "Forecast" (9/10) =
      (false, SAGE.RelReason.incompatibleTypes "Forecast" "Forecast") ∧
    (0.8 : ℚ) ≤ 9/10 := by
  constructor
  · simp [SAGE.validate_relation, SAGE.compatible_pairs]
    norm_num
  · norm_num

/-- C7 as amended: relation validation rejects any similarity below
0.8 with a reason citing the threshold (in particular similarity 0.79
with compatible types); at or above 0.8 it accepts exactly when the
ordered type pair or its reverse occurs in the fixed compatibility
list, otherwise rejecting with an incompatible-types reason; listed
same-type pairs are compatible but unlisted ones (such as
Forecast-Forecast) are not. -/
theorem validate_relation_rules :
    (∀ (a b : String) (s : ℚ), s < 0.8 →
      SAGE.validate_relation a b s = (false, SAGE.RelReason.similarityTooLow s)) ∧
    (∀ (a b : String) (s : ℚ), 0.8 ≤ s →
      SAGE.validate_relation a b s =
        if SAGE.compatible_pairs.contains (a, b) || SAGE.compatible_pairs.contains (b, a)
        then (true, SAGE.RelReason.validated)
        else (false, SAGE.RelReason.incompatibleTypes a b)) ∧
    SAGE.validate_relation "Transaction" "Transaction" (79/100) =
      (false, SAGE.RelReason.similarityTooLow (79/100)) := by
  refine ⟨?_, ?_, ?_⟩
  · intro a b s hs
    simp only [SAGE.validate_relation, if_pos hs]
  · intro a b s hs
    simp only [SAGE.validate_relation, if_neg (not_lt.2 hs)]
  · have h : (79/100 : ℚ) < 0.8 := by norm_num
    simp only [SAGE.validate_relation, if_pos h]

/-- Witness for C7: both hypothesised branches applied at concrete
inputs, one below the threshold and one above it. -/
theorem validate_relation_rules_witness :
    ((1/2 : ℚ) < 0.8 ∧
      SAGE.validate_relation "Account" "Document" (1/2) =
        (false, SAGE.RelReason.similarityTooLow (1/2))) ∧
    ((0.8 : ℚ) ≤ 9/10 ∧
      SAGE.validate_relation "Transaction" "Account" (9/10) =
        if SAGE.compatible_pairs.contains ("Transaction", "Account")
            || SAGE.compatible_pairs.contains ("Account", "Transaction")
        then (true, SAGE.RelReason.validated)
        else (false, SAGE.RelReason.incompatibleTypes "Transaction" "Account")) :=
  ⟨⟨by norm_num, validate_relation_rules.1 _ _ _ (by norm_num)⟩,
   ⟨by norm_num, validate_relation_rules.2.1 _ _ _ (by norm_num)⟩⟩

/-- C8: for fixed initial trust and creation time, trust decay is
monotone non-increasing in the evaluation time, and the returned value
never drops below the floor 0.1. -/
theorem trust_decay_monotone (initial_trust : ℝ) (created_at : ℚ) (t1 t2 : ℚ)
    (h : t1 < t2) :
    Kronos.calculate_trust_decay initial_trust created_at t2 ≤
      Kronos.calculate_trust_decay initial_trust created_at t1 ∧
    (0.1 : ℝ) ≤ Kronos.calculate_trust_decay initial_trust created_at t2 := by
  have hlam : (0 : ℝ) ≤ Real.log 2 / Kronos.trust_half_life_days := by
    apply le_of_lt
    apply div_pos (Real.log_pos (by norm_num))
    simp only [Kronos.trust_half_life_days]
    norm_num
  have hd : ((t1 - created_at : ℚ) : ℝ) ≤ ((t2 - created_at : ℚ) : ℝ) := by
    exact_mod_cast sub_le_sub_right (le_of_lt h) created_at
  have hdd : ((t1 - created_at : ℚ) : ℝ) / 86400 ≤ ((t2 - created_at : ℚ) : ℝ) / 86400 := by
    linarith
  have hexp : Real.exp (-(Real.log 2 / Kronos.trust_half_life_days)
        * (((t2 - created_at : ℚ) : ℝ) / 86400)) ≤
      Real.exp (-(Real.log 2 / Kronos.trust_half_life_days)
        * (((t1 - created_at : ℚ) : ℝ) / 86400)) := by
    apply Real.exp_le_exp.2
    have hm := mul_le_mul_of_nonneg_left hdd hlam
    linarith
  constructor
  · simp only [Kronos.calculate_trust_decay]
    rcases le_or_lt 0 initial_trust with hI | hI
    · exact max_le_max le_rfl (mul_le_mul_of_nonneg_left hexp hI)
    · have e2pos := Real.exp_pos (-(Real.log 2 / Kronos.trust_half_life_days)
        * (((t2 - created_at : ℚ) : ℝ) / 86400))
      have e1pos := Real.exp_pos (-(Real.log 2 / Kronos.trust_half_life_days)
        * (((t1 - created_at : ℚ) : ℝ) / 86400))
      have h2 : initial_trust * Real.exp (-(Real.log 2 / Kronos.trust_half_life_days)
          * (((t2 - created_at : ℚ) : ℝ) / 86400)) ≤ Kronos.min_trust := by
        simp only [Kronos.min_trust]
        nlinarith
      have h1 : initial_trust * Real.exp (-(Real.log 2 / Kronos.trust_half_life_days)
          * (((t1 - created_at : ℚ) : ℝ) / 86400)) ≤ Kronos.min_trust := by
        simp only [Kronos.min_trust]
        nlinarith
      rw [max_eq_left h2, max_eq_left h1]
  · simp only [Kronos.calculate_trust_decay, Kronos.min_trust]
    exact le_max_left _ _

/-- Witness for C8: decay of initial trust 0.8 one day after creation
against decay at creation time. -/
theorem trust_decay_monotone_witness :
    (0 : ℚ) < 86400 ∧
    (Kronos.calculate_trust_decay 0.8 0 86400 ≤ Kronos.calculate_trust_decay 0.8 0 0 ∧
      (0.1 : ℝ) ≤ Kronos.calculate_trust_decay 0.8 0 86400) :=
  ⟨by norm_num, trust_decay_monotone 0.8 0 0 86400 (by norm_num)⟩

/-- C9: when schema validation fails, ingestion returns the validation
error carrying the full error list verbatim, and the store is
returned exactly as it was: no object, vector, governance, relation,
provenance or temporal row is written. -/
theorem ingest_invalid_no_side_effects
    (env : Core.IngestEnv) (st : Core.Store) (object_type : String)
    (data : Core.FieldMap) (actor : String) (normalized : Core.FieldMap)
    (errs : List String)
    (hval : env.validate object_type data = (false, normalized, errs)) :
    Core.ingest env st object_type data actor =
      (st, Except.error (Core.IngestError.validationError errs)) := by
  simp [Core.ingest, hval]

/-- Witness for C9: a concrete environment whose validator rejects
with two field errors, applied to the empty store. -/
theorem ingest_invalid_no_side_effects_witness :
    c9Env.validate "Note" [] =
      (false, [], ["title: required field missing", "amount: not a number"]) ∧
    Core.ingest c9Env Core.emptyStore "Note" [] "tester" =
      (Core.emptyStore, Except.error (Core.IngestError.validationError
        ["title: required field missing", "amount: not a number"])) :=
  ⟨rfl, ingest_invalid_no_side_effects c9Env Core.emptyStore "Note" [] "tester" [] _ rfl⟩

/-- C10: the cosine-similarity divisor of the drift computation is the
product of the two norms with no zero guard; it is nonzero whenever
both vectors have a nonzero entry, while a zero vector on either side
makes the divisor exactly 0, reaching the division-by-zero branch (in
this total embedding of real arithmetic that division yields 0; in the
source it raises a numpy warning and produces a NaN-like value). -/
theorem coherence_drift_divisor :
    (∀ (baseline current : List ℝ),
      (∃ x ∈ baseline, x ≠ 0) → (∃ y ∈ current, y ≠ 0) →
        vecNorm baseline * vecNorm current ≠ 0) ∧
    vecNorm [(0 : ℝ)] * vecNorm [(1 : ℝ)] = 0 ∧
    vecNorm [(1 : ℝ)] * vecNorm [(0 : ℝ)] = 0 := by
  refine ⟨?_, ?_, ?_⟩
  · rintro baseline current ⟨x, hx, hx0⟩ ⟨y, hy, hy0⟩
    exact ne_of_gt (mul_pos (vecNorm_pos hx hx0) (vecNorm_pos hy hy0))
  · simp [vecNorm, sumSq]
  · simp [vecNorm, sumSq]

/-- Witness for C10: two concrete nonzero vectors with a nonzero
divisor. -/
theorem coherence_drift_divisor_witness :
    (∃ x ∈ [(1 : ℝ), 0], x ≠ 0) ∧ (∃ y ∈ [(0 : ℝ), 1], y ≠ 0) ∧
      vecNorm [(1 : ℝ), 0] * vecNorm [(0 : ℝ), 1] ≠ 0 :=
  ⟨⟨1, by simp, one_ne_zero⟩, ⟨1, by simp, one_ne_zero⟩,
    coherence_drift_divisor.1 _ _ ⟨1, by simp, one_ne_zero⟩ ⟨1, by simp, one_ne_zero⟩⟩

end Sov
